import Mathlib

/-!
# Verification of the Pet Store service (flask-tdd lab)

A shallow embedding of the core of the repository:
`service/models.py` (the `Pet` entity with `serialize`/`deserialize` and the
query helpers) and `service/routes.py` (the HTTP route handlers for list,
read, create, update, delete and purchase).

Python runtime values appearing in JSON payloads and on Pet attributes are
modelled by `PyVal`; a JSON object body is an association list `PyDict`.
Handlers take the store (a list of persisted pets plus the autoincrement
counter) and return the new store together with an `HResult`: either an HTTP
response (including responses produced through `abort`) or an uncaught Python
exception escaping the handler.
-/

set_option maxHeartbeats 1000000

namespace PetStore

/-- `Gender` enumeration from `service/models.py` (members MALE, FEMALE, UNKNOWN). -/
inductive Gender
  | MALE
  | FEMALE
  | UNKNOWN
  deriving DecidableEq, Repr

/-- `member.name` of a `Gender` member (Python `Enum.name`). -/
def Gender.name : Gender → String
  | .MALE => "MALE"
  | .FEMALE => "FEMALE"
  | .UNKNOWN => "UNKNOWN"

/-- Member-map subscript `Gender[s]` (`Enum.__getitem__`, used by
`list_pets`): succeeds exactly on the member names, raises `KeyError`
(`none`) on every other string. -/
def genderOfName (s : String) : Option Gender :=
  if s == "MALE" then some .MALE
  else if s == "FEMALE" then some .FEMALE
  else if s == "UNKNOWN" then some .UNKNOWN
  else none

/-- A Gregorian calendar date (`datetime.date`). -/
structure PyDate where
  year : Nat
  month : Nat
  day : Nat
  deriving DecidableEq, Repr

/-- Leap-year rule of the proleptic Gregorian calendar used by `datetime`. -/
def isLeapYear (y : Nat) : Bool :=
  (y % 4 == 0 && y % 100 != 0) || (y % 400 == 0)

/-- Number of days in a month of a given year. -/
def daysInMonth (y m : Nat) : Nat :=
  if m == 2 then (if isLeapYear y then 29 else 28)
  else if m == 4 || m == 6 || m == 9 || m == 11 then 30
  else 31

/-- Validity of a date in `datetime`'s range (`MINYEAR = 1`, `MAXYEAR = 9999`). -/
def isValidDate (y m d : Nat) : Bool :=
  1 ≤ y && y ≤ 9999 && 1 ≤ m && m ≤ 12 && 1 ≤ d && d ≤ daysInMonth y m

/-- The decimal digit character for `n % 10`. -/
def digitChar (n : Nat) : Char :=
  match n % 10 with
  | 0 => '0' | 1 => '1' | 2 => '2' | 3 => '3' | 4 => '4'
  | 5 => '5' | 6 => '6' | 7 => '7' | 8 => '8' | _ => '9'

/-- Decode a decimal digit character, `none` on anything else. -/
def decodeDigit (c : Char) : Option Nat :=
  if 48 ≤ c.toNat && c.toNat ≤ 57 then some (c.toNat - 48) else none

/-- `date.isoformat()`: render as `YYYY-MM-DD` with zero padding (`datetime`
dates always have `year ≤ 9999`, `month ≤ 12`, `day ≤ 31`). -/
def date_isoformat (d : PyDate) : String :=
  ⟨[digitChar (d.year / 1000), digitChar (d.year / 100), digitChar (d.year / 10),
    digitChar d.year, '-',
    digitChar (d.month / 10), digitChar d.month, '-',
    digitChar (d.day / 10), digitChar d.day]⟩

/-- `date.fromisoformat` on the canonical `YYYY-MM-DD` form: parse the ten
characters and validate the calendar date; `none` models `ValueError`. -/
def date_fromisoformat (s : String) : Option PyDate :=
  match s.data with
  | [c1, c2, c3, c4, c5, c6, c7, c8, c9, c10] =>
    if c5 = '-' ∧ c8 = '-' then
      match decodeDigit c1, decodeDigit c2, decodeDigit c3, decodeDigit c4,
            decodeDigit c6, decodeDigit c7, decodeDigit c9, decodeDigit c10 with
      | some a, some b, some c, some d, some e, some f, some g, some h =>
        let y := 1000 * a + 100 * b + 10 * c + d
        let mo := 10 * e + f
        let da := 10 * g + h
        if isValidDate y mo da then some ⟨y, mo, da⟩ else none
      | _, _, _, _, _, _, _, _ => none
    else none
  | _ => none

/-- A Python runtime value as it appears in payloads and on Pet attributes.
`pyobj` stands for any other Python object (a method, a mappingproxy, a
class, ...) tagged by a description; such objects arise when `getattr` on
the `Gender` class resolves a non-member class attribute. -/
inductive PyVal
  | pystr (s : String)
  | pybool (b : Bool)
  | pyint (n : Int)
  | pynone
  | pygender (g : Gender)
  | pydate (d : PyDate)
  | pyobj (descr : String)
  deriving DecidableEq, Repr

/-- Python truthiness (`bool(v)`) of the values we model (the `pyobj`
objects reachable here — methods, the three-member `__members__` proxy,
the docstring — are all truthy). -/
def pyTruthy : PyVal → Bool
  | .pystr s => !(s == "")
  | .pybool b => b
  | .pyint n => !(n == 0)
  | .pynone => false
  | .pygender _ => true
  | .pydate _ => true
  | .pyobj _ => true

/-- Non-member attribute names reachable on the `Gender` Enum class: a
representative selection of the attribute surface CPython exposes through
`getattr` on an Enum class (methods and dunders inherited from `type` /
`EnumMeta`, plus Enum internals).  `getattr(Gender, s)` succeeds on each of
these, returning an ordinary object, not a member.  (`name` and `value` are
deliberately absent: they are `DynamicClassAttribute`s and raise
`AttributeError` when accessed on the class itself.) -/
def genderClassAttrs : List String :=
  ["mro", "__name__", "__qualname__", "__doc__", "__module__", "__members__",
   "__class__", "__bases__", "__dict__", "_member_map_", "_member_names_",
   "_value2member_map_"]

/-- `getattr(Gender, s)`: member names resolve to the members themselves;
the non-member class attributes of `genderClassAttrs` resolve to ordinary
non-member objects; any other name raises `AttributeError` (`none`). -/
def getattrGender (s : String) : Option PyVal :=
  match genderOfName s with
  | some g => some (.pygender g)
  | none => if genderClassAttrs.contains s then some (.pyobj s) else none

/-- A JSON object body / serialized mapping, keys to Python values. -/
def PyDict := List (String × PyVal)

instance : DecidableEq PyDict := fun a b => List.hasDecEq a b

instance : Repr PyDict := inferInstanceAs (Repr (List (String × PyVal)))

/-- `data[k]`: Python dict subscript, `none` models `KeyError`. -/
def PyDict.get (d : PyDict) (k : String) : Option PyVal :=
  List.lookup k d

/-- The `Pet` entity of `service/models.py`.  Attribute values are Python
values: a freshly constructed `Pet()` has every attribute `None`, and
`deserialize` assigns whatever value the payload holds to `name` and
`category` without a type check, exactly as the source does. -/
structure Pet where
  id : PyVal
  name : PyVal
  category : PyVal
  available : PyVal
  gender : PyVal
  birthday : PyVal
  deriving DecidableEq, Repr

/-- `Pet()`: a freshly constructed instance, all attributes unset (`None`). -/
def Pet.new : Pet :=
  ⟨.pynone, .pynone, .pynone, .pynone, .pynone, .pynone⟩

/-- An exception escaping (or raised inside) a handler. -/
inductive PyErr
  | dataValidationError (msg : String)
  | valueError (msg : String)
  | keyError (key : String)
  | attributeError (msg : String)
  deriving DecidableEq, Repr

/-- `str(type(v))` as it appears in the `available` error message. -/
def pyTypeName : PyVal → String
  | .pystr _ => "<class str>"
  | .pybool _ => "<class bool>"
  | .pyint _ => "<class int>"
  | .pynone => "<class NoneType>"
  | .pygender _ => "<enum Gender>"
  | .pydate _ => "<class datetime.date>"
  | .pyobj _ => "<class object>"

/-- `Pet.serialize`: the dictionary
`{id, name, category, available, gender: <member name>, birthday: <ISO string>}`.
`none` models the `AttributeError` raised when `gender` is not an enum member
or `birthday` is not a date. -/
def Pet.serialize (p : Pet) : Option PyDict :=
  match p.gender, p.birthday with
  | .pygender g, .pydate d =>
    some [("id", p.id), ("name", p.name), ("category", p.category),
          ("available", p.available), ("gender", .pystr g.name),
          ("birthday", .pystr (date_isoformat d))]
  | _, _ => none

/-- `Pet.deserialize(data)`: sequential field assignment with the source's
validation; returns the state of `self` after the call (its earlier
assignments are kept even when a later step raises) together with the raised
exception, if any.  `KeyError`, `AttributeError` and `TypeError` are caught
and re-raised as `DataValidationError`; the `ValueError` from
`date.fromisoformat` is not caught and escapes as a `valueError`. -/
def Pet.deserialize (self : Pet) (data : PyDict) : Pet × Option PyErr :=
  match data.get "name" with
  | none => (self, some (.dataValidationError "Invalid pet: missing name"))
  | some vname =>
    let self := { self with name := vname }
    match data.get "category" with
    | none => (self, some (.dataValidationError "Invalid pet: missing category"))
    | some vcat =>
      let self := { self with category := vcat }
      match data.get "available" with
      | none => (self, some (.dataValidationError "Invalid pet: missing available"))
      | some vav =>
        match vav with
        | .pybool b =>
          let self := { self with available := .pybool b }
          match data.get "gender" with
          | none => (self, some (.dataValidationError "Invalid pet: missing gender"))
          | some vg =>
            match vg with
            | .pystr gs =>
              match getattrGender gs with
              | none => (self, some (.dataValidationError ("Invalid attribute: " ++ gs)))
              | some v =>
                let self := { self with gender := v }
                match data.get "birthday" with
                | none => (self, some (.dataValidationError "Invalid pet: missing birthday"))
                | some vb =>
                  match vb with
                  | .pystr bs =>
                    match date_fromisoformat bs with
                    | none => (self, some (.valueError ("Invalid isoformat string: " ++ bs)))
                    | some d => ({ self with birthday := .pydate d }, none)
                  | _ =>
                    (self, some (.dataValidationError
                      "Invalid pet: body of request contained bad or no data"))
            | _ =>
              (self, some (.dataValidationError
                "Invalid pet: body of request contained bad or no data"))
        | _ =>
          (self, some (.dataValidationError
            ("Invalid type for boolean [available]: " ++ pyTypeName vav)))

/-- The persistent store: the table of pets plus the autoincrement counter
used for primary-key assignment on insert. -/
structure DB where
  pets : List Pet
  nextId : Int
  deriving DecidableEq, Repr

/-- `Pet.find(pet_id)`: primary-key lookup (`query.get`). -/
def Pet.find (db : DB) (pet_id : Nat) : Option Pet :=
  db.pets.find? (fun p => p.id == PyVal.pyint pet_id)

/-- `Pet.all()`. -/
def Pet.all (db : DB) : List Pet :=
  db.pets

/-- `Pet.find_by_category(category)`: exact match on the attribute. -/
def Pet.find_by_category (db : DB) (category : String) : List Pet :=
  db.pets.filter (fun p => p.category == PyVal.pystr category)

/-- `Pet.find_by_name(name)`: exact match on the attribute. -/
def Pet.find_by_name (db : DB) (name : String) : List Pet :=
  db.pets.filter (fun p => p.name == PyVal.pystr name)

/-- `Pet.find_by_availability(available)`: exact match on the attribute. -/
def Pet.find_by_availability (db : DB) (available : Bool) : List Pet :=
  db.pets.filter (fun p => p.available == PyVal.pybool available)

/-- `Pet.find_by_gender(gender)`: exact match on the attribute. -/
def Pet.find_by_gender (db : DB) (gender : Gender) : List Pet :=
  db.pets.filter (fun p => p.gender == PyVal.pygender gender)

/-- Commit of an in-place update: the row with the updated pet's primary key
now holds the updated object (SQLAlchemy keeps one object per primary key). -/
def DB.commitUpdate (db : DB) (pet : Pet) : DB :=
  { db with pets := db.pets.map (fun p => if p.id == pet.id then pet else p) }

/-- `pet.create()`: set `id` to `None`, insert, commit — the store assigns
the next primary key.  Returns the store and the persisted pet. -/
def DB.commitCreate (db : DB) (pet : Pet) : DB × Pet :=
  let pet := { pet with id := PyVal.pyint db.nextId }
  ({ pets := db.pets ++ [pet], nextId := db.nextId + 1 }, pet)

/-- The body of an HTTP response. -/
inductive Body
  | obj (d : PyDict)
  | arr (l : List PyDict)
  | errorBody (status : Nat) (message : String)
  deriving DecidableEq, Repr

/-- An HTTP response: status code and body. -/
structure HResp where
  status : Nat
  body : Body
  deriving DecidableEq, Repr

/-- Outcome of a handler: an HTTP response (possibly produced through
`abort`), or an uncaught Python exception escaping the handler. -/
inductive HResult
  | resp (r : HResp)
  | raised (e : PyErr)
  deriving DecidableEq, Repr

/-- `abort(404, ...)` from the pet-lookup in get/update/purchase. -/
def abort404 (pet_id : Nat) : HResult :=
  .resp ⟨404, .errorBody 404 ("Pet with id " ++ toString pet_id ++ " was not found.")⟩

/-- `abort(409, ...)` from `purchase_pets`. -/
def abort409 (pet_id : Nat) : HResult :=
  .resp ⟨409, .errorBody 409 ("Pet with id " ++ toString pet_id ++ " is not available.")⟩

/-- `abort(415, ...)` from `check_content_type`. -/
def abort415 (content_type : String) : HResp :=
  ⟨415, .errorBody 415 ("Content-Type must be " ++ content_type)⟩

/-- A body-carrying write request: the `Content-Type` header (absent or its
exact raw value) and the body as seen by `request.get_json()` — `some` a
parsed JSON object, or `none` when the body is absent or not a JSON
object. -/
structure WriteReq where
  contentType : Option String
  body : Option PyDict

/-- `pet.deserialize(request.get_json())`: with a parsed JSON object this is
`Pet.deserialize`; when no JSON object could be read, subscripting the
non-mapping raises `TypeError`, caught by `deserialize` and re-raised as
`DataValidationError` (rule 1 of the deserialize contract). -/
def Pet.deserializeBody (self : Pet) (body : Option PyDict) : Pet × Option PyErr :=
  match body with
  | some data => self.deserialize data
  | none =>
    (self, some (.dataValidationError "Invalid pet: body of request contained bad or no data"))

/-- `check_content_type(content_type)` from `service/routes.py`: `none` when
the check passes, otherwise the 415 response produced through `abort`. -/
def check_content_type (req : WriteReq) (content_type : String) : Option HResp :=
  match req.contentType with
  | none => some (abort415 content_type)
  | some ct => if ct == content_type then none else some (abort415 content_type)

/-- Serialize every pet of a list (`[pet.serialize() for pet in pets]`);
`none` when some pet raises `AttributeError` in `serialize`. -/
def serializeAll : List Pet → Option (List PyDict)
  | [] => some []
  | p :: ps =>
    match p.serialize, serializeAll ps with
    | some d, some ds => some (d :: ds)
    | _, _ => none

/-- The query-string arguments read by `list_pets` (each absent or its raw
string value; an empty string is a present-but-empty parameter). -/
structure ListArgs where
  category : Option String
  name : Option String
  available : Option String
  gender : Option String
  deriving DecidableEq, Repr

/-- Python `str.upper()` restricted to the ASCII case mapping
(`Char.toUpper` on each character). -/
def pyUpper (s : String) : String := ⟨s.data.map Char.toUpper⟩

/-- Python truthiness of `request.args.get(...)`: `None` and the empty
string are falsy. -/
def truthyArg : Option String → Bool
  | none => false
  | some s => !(s == "")

/-- `available.lower() in ["true", "yes", "1"]`. -/
def parseAvailableArg (s : String) : Bool :=
  let l := s.toLower
  l == "true" || l == "yes" || l == "1"

/-- `list_pets` (`GET /pets`): pick at most one filter by the `if`/`elif`
truthiness chain, then serialize the selection.  A gender value whose
uppercase form is not a member name raises an uncaught `KeyError`
(`Gender[gender.upper()]`). -/
def list_pets (db : DB) (args : ListArgs) : HResult :=
  let selected : Except PyErr (List Pet) :=
    if truthyArg args.category then
      .ok (Pet.find_by_category db (args.category.getD ""))
    else if truthyArg args.name then
      .ok (Pet.find_by_name db (args.name.getD ""))
    else if truthyArg args.available then
      .ok (Pet.find_by_availability db (parseAvailableArg (args.available.getD "")))
    else if truthyArg args.gender then
      match genderOfName (pyUpper (args.gender.getD "")) with
      | some g => .ok (Pet.find_by_gender db g)
      | none => .error (.keyError (pyUpper (args.gender.getD "")))
    else
      .ok (Pet.all db)
  match selected with
  | .error e => .raised e
  | .ok pets =>
    match serializeAll pets with
    | some results => .resp ⟨200, .arr results⟩
    | none => .raised (.attributeError "serialize")

/-- `get_pets` (`GET /pets/<pet_id>`). -/
def get_pets (db : DB) (pet_id : Nat) : HResult :=
  match Pet.find db pet_id with
  | none => abort404 pet_id
  | some pet =>
    match pet.serialize with
    | some d => .resp ⟨200, .obj d⟩
    | none => .raised (.attributeError "serialize")

/-- `create_pets` (`POST /pets`): content-type check, deserialize into a
fresh `Pet()`, persist, 201 with the serialized pet.  A raised
`DataValidationError` escapes the handler (to the application error
handlers, see `apply_error_handlers`). -/
def create_pets (db : DB) (req : WriteReq) : DB × HResult :=
  match check_content_type req "application/json" with
  | some r => (db, .resp r)
  | none =>
    match Pet.new.deserializeBody req.body with
    | (_, some e) => (db, .raised e)
    | (pet, none) =>
      let (db, pet) := db.commitCreate pet
      match pet.serialize with
      | some d => (db, .resp ⟨201, .obj d⟩)
      | none => (db, .raised (.attributeError "serialize"))

/-- `pet.update()`: raises `DataValidationError` when `id` is falsy,
otherwise commits the in-place update. -/
def petUpdate (db : DB) (pet : Pet) : Except PyErr DB :=
  if pyTruthy pet.id then .ok (db.commitUpdate pet)
  else .error (.dataValidationError "Update called with empty ID field")

/-- `update_pets` (`PUT /pets/<pet_id>`): content-type check, find (404 when
absent), deserialize into the found pet, `pet.update()`, 200 with the
serialized pet.  On a deserialize failure nothing is committed, so the store
is unchanged and the exception escapes the handler. -/
def update_pets (db : DB) (pet_id : Nat) (req : WriteReq) : DB × HResult :=
  match check_content_type req "application/json" with
  | some r => (db, .resp r)
  | none =>
    match Pet.find db pet_id with
    | none => (db, abort404 pet_id)
    | some pet =>
      match pet.deserializeBody req.body with
      | (_, some e) => (db, .raised e)
      | (pet, none) =>
        match petUpdate db pet with
        | .error e => (db, .raised e)
        | .ok db =>
          match pet.serialize with
          | some d => (db, .resp ⟨200, .obj d⟩)
          | none => (db, .raised (.attributeError "serialize"))

/-- `delete_pets` (`DELETE /pets/<pet_id>`): remove the row when present,
always `({}, 204)`. -/
def delete_pets (db : DB) (pet_id : Nat) : DB × HResult :=
  match Pet.find db pet_id with
  | none => (db, .resp ⟨204, .obj []⟩)
  | some _ =>
    ({ db with pets := db.pets.eraseP (fun p => p.id == PyVal.pyint pet_id) },
     .resp ⟨204, .obj []⟩)

/-- `purchase_pets` (`PUT /pets/<pet_id>/purchase`): 404 when absent, 409
when `not pet.available`, otherwise set `available = False`, `pet.update()`,
200 with the serialized pet. -/
def purchase_pets (db : DB) (pet_id : Nat) : DB × HResult :=
  match Pet.find db pet_id with
  | none => (db, abort404 pet_id)
  | some pet =>
    if !(pyTruthy pet.available) then (db, abort409 pet_id)
    else
      let pet := { pet with available := PyVal.pybool false }
      match petUpdate db pet with
      | .error e => (db, .raised e)
      | .ok db =>
        match pet.serialize with
        | some d => (db, .resp ⟨200, .obj d⟩)
        | none => (db, .raised (.attributeError "serialize"))

/-- Modelled from the spec: the application error-handler module
(`service/common/error_handlers.py` is imported by `service/__init__.py`
but absent from the sources) converts a `DataValidationError` escaping a
handler into a 400 Bad Request response with a structured error body; other
uncaught exceptions are left to the framework (HTTP 500). -/
def apply_error_handlers : HResult → HResult
  | .raised (.dataValidationError msg) => .resp ⟨400, .errorBody 400 msg⟩
  | r => r

/-- `POST /pets` as dispatched by the application: the handler plus the
registered error handlers. -/
def create_pets_route (db : DB) (req : WriteReq) : DB × HResult :=
  let (db, r) := create_pets db req
  (db, apply_error_handlers r)

/-- `PUT /pets/<pet_id>` as dispatched by the application: the handler plus
the registered error handlers. -/
def update_pets_route (db : DB) (pet_id : Nat) (req : WriteReq) : DB × HResult :=
  let (db, r) := update_pets db pet_id req
  (db, apply_error_handlers r)

/-- Well-formed attribute values in the sense of the data model: non-empty
string `name` and `category`, boolean `available`, enum `gender`, valid
calendar-date `birthday`. -/
def Pet.wellFormed (p : Pet) : Bool :=
  match p.name, p.category, p.available, p.gender, p.birthday with
  | .pystr n, .pystr c, .pybool _, .pygender _, .pydate d =>
    !(n == "") && !(c == "") && isValidDate d.year d.month d.day
  | _, _, _, _, _ => false

/-- The failing case of `list_pets`: the truthiness chain reaches the gender
filter and the uppercased value is not an enumeration member name. -/
def genderFilterFails (args : ListArgs) : Bool :=
  !truthyArg args.category && !truthyArg args.name && !truthyArg args.available &&
    truthyArg args.gender && (genderOfName (pyUpper (args.gender.getD ""))).isNone

/-! ### Concrete fixtures used by witnesses and counterexamples -/

/-- An available MALE dog with id 1. -/
def petA : Pet :=
  ⟨.pyint 1, .pystr "Fido", .pystr "dog", .pybool true, .pygender .MALE,
   .pydate ⟨2020, 1, 1⟩⟩

/-- An unavailable FEMALE cat with id 2. -/
def petB : Pet :=
  ⟨.pyint 2, .pystr "Kitty", .pystr "cat", .pybool false, .pygender .FEMALE,
   .pydate ⟨2019, 5, 5⟩⟩

/-- A store holding `petA` and `petB`. -/
def dbAB : DB := ⟨[petA, petB], 3⟩

/-- The serialized form of `petA`. -/
def petADict : PyDict := (petA.serialize).getD []

/-- A fully valid create payload. -/
def goodPayload : PyDict :=
  [("name", .pystr "Rex"), ("category", .pystr "dog"), ("available", .pybool true),
   ("gender", .pystr "FEMALE"), ("birthday", .pystr "2021-03-04")]

/-- The serialized pet produced by updating pet 1 with `goodPayload`. -/
def updatedDict : PyDict :=
  [("id", .pyint 1), ("name", .pystr "Rex"), ("category", .pystr "dog"),
   ("available", .pybool true), ("gender", .pystr "FEMALE"),
   ("birthday", .pystr "2021-03-04")]

/-! ### Helper lemmas -/

theorem decodeDigit_digitChar (n : Nat) : decodeDigit (digitChar n) = some (n % 10) := by
  have h : n % 10 < 10 := Nat.mod_lt _ (by norm_num)
  unfold digitChar
  rcases hk : n % 10 with _ | _ | _ | _ | _ | _ | _ | _ | _ | k
  · rfl
  · rfl
  · rfl
  · rfl
  · rfl
  · rfl
  · rfl
  · rfl
  · rfl
  · have hk0 : k = 0 := by omega
    subst hk0
    rfl

theorem daysInMonth_le (y m : Nat) : daysInMonth y m ≤ 31 := by
  unfold daysInMonth
  split
  · split <;> omega
  · split <;> omega

theorem date_fromisoformat_isoformat (d : PyDate)
    (h : isValidDate d.year d.month d.day = true) :
    date_fromisoformat (date_isoformat d) = some d := by
  obtain ⟨y, m, da⟩ := d
  have hb := h
  simp only [isValidDate, Bool.and_eq_true, decide_eq_true_eq] at hb
  obtain ⟨⟨⟨⟨⟨h1, h2⟩, h3⟩, h4⟩, h5⟩, h6⟩ := hb
  have hda : da ≤ 31 := le_trans h6 (daysInMonth_le y m)
  unfold date_isoformat date_fromisoformat
  simp only [decodeDigit_digitChar]
  have ey : 1000 * (y / 1000 % 10) + 100 * (y / 100 % 10) + 10 * (y / 10 % 10) + y % 10 = y := by
    omega
  have em : 10 * (m / 10 % 10) + m % 10 = m := by omega
  have eda : 10 * (da / 10 % 10) + da % 10 = da := by omega
  simp only [ey, em, eda, h, if_true]
  simp

theorem genderOfName_name (g : Gender) : genderOfName g.name = some g := by
  cases g <;> rfl

theorem getattrGender_name (g : Gender) :
    getattrGender g.name = some (PyVal.pygender g) := by
  cases g <;> rfl

theorem serializeAll_eq_some (l : List Pet) (h : ∀ p ∈ l, (Pet.serialize p).isSome) :
    ∃ arr, serializeAll l = some arr := by
  induction l with
  | nil => exact ⟨[], rfl⟩
  | cons p ps ih =>
    obtain ⟨arr, harr⟩ := ih (fun q hq => h q (List.mem_cons_of_mem _ hq))
    obtain ⟨d, hd⟩ := Option.isSome_iff_exists.mp (h p (List.mem_cons_self _ _))
    exact ⟨d :: arr, by simp [serializeAll, hd, harr]⟩

theorem eraseP_eq_filter_of_nodup (l : List Pet) (i : Int)
    (hnd : (l.map Pet.id).Nodup) :
    l.eraseP (fun p => p.id == PyVal.pyint i) =
      l.filter (fun p => !(p.id == PyVal.pyint i)) := by
  induction l with
  | nil => rfl
  | cons a t ih =>
    simp only [List.map_cons, List.nodup_cons, List.mem_map] at hnd
    obtain ⟨ha, ht⟩ := hnd
    by_cases h : (a.id == PyVal.pyint i) = true
    · have hai : a.id = PyVal.pyint i := by simpa using h
      have htail : ∀ b ∈ t, (!(b.id == PyVal.pyint i)) = true := by
        intro b hb
        have hne : b.id ≠ PyVal.pyint i := fun hcontra => ha ⟨b, hb, by rw [hcontra, hai]⟩
        simpa using hne
      simp only [List.eraseP_cons, h, cond_true, List.filter_cons, Bool.not_true,
        Bool.false_eq_true, if_false]
      exact (List.filter_eq_self.mpr htail).symm
    · have hf : (a.id == PyVal.pyint i) = false := by simpa using h
      simp only [List.eraseP_cons, hf, cond_false, List.filter_cons, Bool.not_false, if_true]
      rw [ih ht]

theorem deserialize_preserves_id (self : Pet) (data : PyDict) :
    ((self.deserialize data).1).id = self.id := by
  unfold Pet.deserialize
  repeat' split
  all_goals rfl

theorem deserialize_err_of_nonbool_available (self : Pet) (data : PyDict) (v : PyVal)
    (hv : data.get "available" = some v) (hb : ∀ b, v ≠ PyVal.pybool b) :
    ∃ msg, (self.deserialize data).2 = some (PyErr.dataValidationError msg) := by
  unfold Pet.deserialize
  cases h1 : data.get "name" with
  | none => exact ⟨_, rfl⟩
  | some vn =>
  cases h2 : data.get "category" with
  | none => exact ⟨_, rfl⟩
  | some vc =>
  rw [hv]
  cases v with
  | pybool b => exact absurd rfl (hb b)
  | pystr s => exact ⟨_, rfl⟩
  | pyint n => exact ⟨_, rfl⟩
  | pynone => exact ⟨_, rfl⟩
  | pygender g => exact ⟨_, rfl⟩
  | pydate d => exact ⟨_, rfl⟩
  | pyobj o => exact ⟨_, rfl⟩

theorem create_route_400 (db : DB) (body : PyDict) (msg : String)
    (h : (Pet.new.deserialize body).2 = some (PyErr.dataValidationError msg)) :
    create_pets_route db ⟨some "application/json", some body⟩ =
      (db, HResult.resp ⟨400, Body.errorBody 400 msg⟩) := by
  unfold create_pets_route create_pets
  have hct : check_content_type ⟨some "application/json", some body⟩ "application/json" = none :=
    rfl
  rw [hct]
  dsimp only [Pet.deserializeBody]
  rcases hd : Pet.new.deserialize body with ⟨pet, err⟩
  rw [hd] at h
  simp only at h
  subst h
  simp [apply_error_handlers]

theorem deserializeBody_preserves_id (self : Pet) (body : Option PyDict) :
    ((self.deserializeBody body).1).id = self.id := by
  cases body with
  | none => rfl
  | some data => exact deserialize_preserves_id self data

theorem check_content_type_some (req : WriteReq) (ct : String) (r : HResp)
    (h : check_content_type req ct = some r) : r = abort415 ct := by
  unfold check_content_type at h
  cases hc : req.contentType with
  | none =>
    rw [hc] at h
    exact ((Option.some.injEq _ _).mp h).symm
  | some v =>
    rw [hc] at h
    by_cases he : (v == ct) = true
    · simp [he] at h
    · simp only [he, Bool.false_eq_true, if_false] at h
      exact ((Option.some.injEq _ _).mp h).symm

theorem commitUpdate_map_id (db : DB) (q : Pet) :
    ((db.commitUpdate q).pets.map Pet.id) = db.pets.map Pet.id := by
  unfold DB.commitUpdate
  dsimp only
  rw [List.map_map]
  apply List.map_congr_left
  intro a ha
  by_cases h : (a.id == q.id) = true
  · have : a.id = q.id := by simpa using h
    simp [Function.comp, h, this]
  · simp only [Bool.not_eq_true] at h
    simp [Function.comp, h]

/-! ### Claim theorems -/

/-- C3: for every Pet `p` with well-formed fields (non-empty string name and
category, boolean `available`, enumerated `gender`, calendar-date
`birthday`), deserializing `serialize(p)` into a fresh Pet reproduces
`name`, `category`, `available`, `gender` and `birthday`, succeeds, and
leaves the fresh instance's `id` untouched (the serialized `id` is not
carried over by `deserialize`). -/
theorem serialize_deserialize_round_trip (p fresh : Pet) (ns cs : String) (b : Bool)
    (g : Gender) (d : PyDate) (dict : PyDict)
    (hn : p.name = PyVal.pystr ns) (hne : ns ≠ "")
    (hc : p.category = PyVal.pystr cs) (hce : cs ≠ "")
    (hav : p.available = PyVal.pybool b)
    (hg : p.gender = PyVal.pygender g)
    (hb : p.birthday = PyVal.pydate d)
    (hd : isValidDate d.year d.month d.day = true)
    (hser : p.serialize = some dict) :
    fresh.deserialize dict =
      ({ fresh with
          name := p.name,
          category := p.category,
          available := p.available,
          gender := p.gender,
          birthday := p.birthday }, none) := by
  unfold Pet.serialize at hser
  simp only [hg, hb] at hser
  have hdict : dict = [("id", p.id), ("name", p.name), ("category", p.category),
      ("available", p.available), ("gender", PyVal.pystr g.name),
      ("birthday", PyVal.pystr (date_isoformat d))] := by
    exact (Option.some.injEq _ _).mp hser |>.symm
  subst hdict
  rw [hn, hc, hav, hg, hb]
  unfold Pet.deserialize
  simp [PyDict.get, List.lookup, getattrGender_name, date_fromisoformat_isoformat d hd]

/-- C4: deserialize rejects every mapping whose `available` value is not a
genuine boolean with a `DataValidationError` (there is no coercion); in
particular a JSON create request carrying `available: "true"` leaves the
store unchanged and yields HTTP 400. -/
theorem deserialize_available_requires_bool :
    (∀ (self : Pet) (data : PyDict) (v : PyVal),
       data.get "available" = some v → (∀ b, v ≠ PyVal.pybool b) →
       ∃ msg, (self.deserialize data).2 = some (PyErr.dataValidationError msg)) ∧
    (∀ (db : DB) (body : PyDict),
       body.get "available" = some (PyVal.pystr "true") →
       ∃ msg, create_pets_route db ⟨some "application/json", some body⟩ =
         (db, HResult.resp ⟨400, Body.errorBody 400 msg⟩)) := by
  constructor
  · exact deserialize_err_of_nonbool_available
  · intro db body hav
    obtain ⟨msg, hmsg⟩ :=
      deserialize_err_of_nonbool_available Pet.new body _ hav (by intro b h; cases h)
    exact ⟨msg, create_route_400 db body msg hmsg⟩

/-- C1: purchase on pet id `p`: 404 when no such pet exists; 409 with the
store unchanged when the pet exists but `available` is `False`; when the pet
exists and `available` is `True` (and it is a persisted row, i.e. its id is
truthy and it serializes), the handler sets `available` to `False`, persists
the change, and returns 200 with the serialized pet. -/
theorem purchase_pets_spec (db : DB) (pid : Nat) :
    (Pet.find db pid = none → purchase_pets db pid = (db, abort404 pid)) ∧
    (∀ pet, Pet.find db pid = some pet → pet.available = PyVal.pybool false →
       purchase_pets db pid = (db, abort409 pid)) ∧
    (∀ pet d, Pet.find db pid = some pet → pet.available = PyVal.pybool true →
       pyTruthy pet.id = true →
       Pet.serialize { pet with available := PyVal.pybool false } = some d →
       purchase_pets db pid =
         (db.commitUpdate { pet with available := PyVal.pybool false },
          HResult.resp ⟨200, Body.obj d⟩)) := by
  refine ⟨?_, ?_, ?_⟩
  · intro h
    unfold purchase_pets
    rw [h]
  · intro pet hf hav
    unfold purchase_pets
    rw [hf]
    simp [hav, pyTruthy]
  · intro pet d hf hav hid hser
    unfold purchase_pets
    rw [hf]
    simp only [hav, pyTruthy, Bool.not_true, Bool.false_eq_true, if_false, ite_false]
    unfold petUpdate
    simp only [hid]
    simp [hser]

/-- C6: for create and update, a missing `Content-Type` header, or any value
other than exactly `application/json` (including a value with parameters
appended), produces 415 with the store unchanged for every body — present,
absent or unparseable — so the 415 is decided before the body is read; the
exact value `application/json` passes the content-type check whatever the
body. -/
theorem write_content_type_check (db : DB) (pid : Nat) :
    (∀ body,
       create_pets_route db ⟨none, body⟩ =
         (db, HResult.resp (abort415 "application/json")) ∧
       update_pets_route db pid ⟨none, body⟩ =
         (db, HResult.resp (abort415 "application/json"))) ∧
    (∀ v body, v ≠ "application/json" →
       create_pets_route db ⟨some v, body⟩ =
         (db, HResult.resp (abort415 "application/json")) ∧
       update_pets_route db pid ⟨some v, body⟩ =
         (db, HResult.resp (abort415 "application/json"))) ∧
    (∀ body,
       check_content_type ⟨some "application/json", body⟩ "application/json" = none) := by
  refine ⟨?_, ?_, ?_⟩
  · intro body
    have hct : check_content_type ⟨none, body⟩ "application/json" =
        some (abort415 "application/json") := rfl
    constructor
    · unfold create_pets_route create_pets
      rw [hct]
      simp [apply_error_handlers]
    · unfold update_pets_route update_pets
      rw [hct]
      simp [apply_error_handlers]
  · intro v body hne
    have hct : check_content_type ⟨some v, body⟩ "application/json" =
        some (abort415 "application/json") := by
      unfold check_content_type
      simp [hne]
    constructor
    · unfold create_pets_route create_pets
      rw [hct]
      simp [apply_error_handlers]
    · unfold update_pets_route update_pets
      rw [hct]
      simp [apply_error_handlers]
  · intro body
    rfl

/-- C7: delete returns 204 with an empty body for every id, a second delete
of the same id also returns 204, a delete of an absent id leaves the store
unchanged, and (for a store with distinct primary keys) the only change is
the removal of the rows carrying that id. -/
theorem delete_pets_idempotent (db : DB) (pid : Nat) :
    ((delete_pets db pid).2 = HResult.resp ⟨204, Body.obj []⟩) ∧
    ((delete_pets (delete_pets db pid).1 pid).2 = HResult.resp ⟨204, Body.obj []⟩) ∧
    (Pet.find db pid = none → (delete_pets db pid).1 = db) ∧
    ((db.pets.map Pet.id).Nodup →
       (delete_pets db pid).1.pets =
         db.pets.filter (fun p => !(p.id == PyVal.pyint pid))) := by
  have h204 : ∀ db' : DB, (delete_pets db' pid).2 = HResult.resp ⟨204, Body.obj []⟩ := by
    intro db'
    unfold delete_pets
    cases h : Pet.find db' pid <;> rfl
  refine ⟨h204 db, h204 _, ?_, ?_⟩
  · intro h
    unfold delete_pets
    rw [h]
  · intro hnd
    unfold delete_pets
    cases h : Pet.find db pid with
    | none =>
      have hall : ∀ p ∈ db.pets, (!(p.id == PyVal.pyint pid)) = true := by
        intro p hp
        have := List.find?_eq_none.mp h p hp
        simpa using this
      exact (List.filter_eq_self.mpr hall).symm
    | some pet =>
      exact eraseP_eq_filter_of_nodup db.pets pid hnd

/-- C8: `id` is never taken from the client payload: deserialize leaves the
instance's `id` exactly as it was (even when the mapping carries an `"id"`
key), update never changes the multiset of stored ids, and a successful
update responds with a pet whose serialized `id` equals the id in the path. -/
theorem update_never_reassigns_id :
    (∀ (self : Pet) (data : PyDict), ((self.deserialize data).1).id = self.id) ∧
    (∀ (db : DB) (pid : Nat) (req : WriteReq),
       ((update_pets_route db pid req).1).pets.map Pet.id = db.pets.map Pet.id) ∧
    (∀ (db : DB) (pid : Nat) (req : WriteReq) (d : PyDict),
       (update_pets_route db pid req).2 = HResult.resp ⟨200, Body.obj d⟩ →
       d.get "id" = some (PyVal.pyint pid)) := by
  refine ⟨deserialize_preserves_id, ?_, ?_⟩
  · intro db pid req
    unfold update_pets_route update_pets
    cases hct : check_content_type req "application/json" with
    | some r => rfl
    | none =>
    dsimp only
    cases hf : Pet.find db pid with
    | none => rfl
    | some pet =>
    dsimp only
    rcases hd : pet.deserializeBody req.body with ⟨pet2, err⟩
    cases err with
    | some e => rfl
    | none =>
    unfold petUpdate
    by_cases hid : pyTruthy pet2.id = true
    · simp only [hid, if_true]
      cases hs : pet2.serialize <;> exact commitUpdate_map_id db pet2
    · simp only [Bool.not_eq_true] at hid
      simp only [hid, Bool.false_eq_true, if_false]
  · intro db pid req d h
    unfold update_pets_route update_pets at h
    cases hct : check_content_type req "application/json" with
    | some r =>
      rw [hct] at h
      have hr := check_content_type_some req "application/json" r hct
      subst hr
      simp [apply_error_handlers, abort415] at h
    | none =>
      rw [hct] at h
      dsimp only at h
      cases hf : Pet.find db pid with
      | none =>
        rw [hf] at h
        simp [apply_error_handlers, abort404] at h
      | some pet =>
        rw [hf] at h
        dsimp only at h
        rcases hd : pet.deserializeBody req.body with ⟨pet2, err⟩
        rw [hd] at h
        cases err with
        | some e => cases e <;> simp [apply_error_handlers] at h
        | none =>
          dsimp only at h
          unfold petUpdate at h
          by_cases hid : pyTruthy pet2.id = true
          · simp only [hid, if_true] at h
            cases hs : pet2.serialize with
            | none =>
              rw [hs] at h
              simp [apply_error_handlers] at h
            | some sd =>
              rw [hs] at h
              simp only [apply_error_handlers, HResult.resp.injEq, HResp.mk.injEq,
                Body.obj.injEq, true_and] at h
              subst h
              have hpid : pet.id = PyVal.pyint pid := by
                have := List.find?_some hf
                simpa using this
              have hpet2 : pet2.id = pet.id := by
                have := deserializeBody_preserves_id pet req.body
                rw [hd] at this
                exact this
              unfold Pet.serialize at hs
              split at hs
              · have hsd := (Option.some.injEq _ _).mp hs
                rw [← hsd]
                show some pet2.id = some (PyVal.pyint pid)
                rw [hpet2, hpid]
              · cases hs
          · simp only [Bool.not_eq_true] at hid
            simp only [hid, Bool.false_eq_true, if_false] at h
            simp [apply_error_handlers] at h

/-- C2 (amended): the list handler applies at most one filter, chosen by the
truthiness precedence category > name > available > gender, where a
parameter supplied as the empty string counts as absent; with no parameters
it returns all pets, and whenever the category parameter is truthy the
result is identical to a category-only request whatever the other
parameters hold (and similarly down the chain). -/
theorem list_pets_filter_precedence (db : DB) (args : ListArgs) :
    (args = ⟨none, none, none, none⟩ → ∀ arr, serializeAll db.pets = some arr →
       list_pets db args = HResult.resp ⟨200, Body.arr arr⟩) ∧
    (truthyArg args.category = true →
       list_pets db args = list_pets db ⟨args.category, none, none, none⟩) ∧
    (truthyArg args.category = false → truthyArg args.name = true →
       list_pets db args = list_pets db ⟨none, args.name, none, none⟩) ∧
    (truthyArg args.category = false → truthyArg args.name = false →
       truthyArg args.available = true →
       list_pets db args = list_pets db ⟨none, none, args.available, none⟩) ∧
    (truthyArg args.category = false → truthyArg args.name = false →
       truthyArg args.available = false → truthyArg args.gender = true →
       list_pets db args = list_pets db ⟨none, none, none, args.gender⟩) := by
  have hnone : truthyArg (none : Option String) = false := rfl
  refine ⟨?_, ?_, ?_, ?_, ?_⟩
  · intro ha arr harr
    subst ha
    simp [list_pets, hnone, Pet.all, harr]
  · intro h1
    simp [list_pets, h1, hnone]
  · intro h1 h2
    simp [list_pets, h1, h2, hnone]
  · intro h1 h2 h3
    simp [list_pets, h1, h2, h3, hnone]
  · intro h1 h2 h3 h4
    simp [list_pets, h1, h2, h3, h4, hnone]

/-- C2 counterexample: both `category` and `gender` are supplied (category
as the empty string), yet the result is the gender filter, not the result
of a category-only request — the claimed equality fails. -/
theorem list_pets_filter_precedence_cex :
    list_pets dbAB ⟨some "", none, none, some "MALE"⟩ ≠
      list_pets dbAB ⟨some "", none, none, none⟩ := by
  decide

/-- C9 (amended): a list request never fails as long as the gender filter is
not reached with a value whose uppercased form is not a member name; in that
remaining case the handler raises an uncaught `KeyError` instead of
returning 200. -/
theorem list_pets_total_amended (db : DB) (args : ListArgs)
    (hwf : ∀ p ∈ db.pets, (Pet.serialize p).isSome) :
    (genderFilterFails args = false →
       ∃ arr, list_pets db args = HResult.resp ⟨200, Body.arr arr⟩) ∧
    (genderFilterFails args = true →
       list_pets db args =
         HResult.raised (PyErr.keyError (pyUpper (args.gender.getD "")))) := by
  have hall : ∀ l : List Pet, (∀ p ∈ l, p ∈ db.pets) →
      ∃ arr, serializeAll l = some arr := fun l hsub =>
    serializeAll_eq_some l (fun p hp => hwf p (hsub p hp))
  constructor
  · intro hok
    unfold list_pets
    by_cases h1 : truthyArg args.category = true
    · obtain ⟨arr, harr⟩ := hall (Pet.find_by_category db (args.category.getD ""))
        (fun p hp => (List.mem_filter.mp hp).1)
      refine ⟨arr, ?_⟩
      simp [h1, harr]
    · simp only [Bool.not_eq_true] at h1
      by_cases h2 : truthyArg args.name = true
      · obtain ⟨arr, harr⟩ := hall (Pet.find_by_name db (args.name.getD ""))
          (fun p hp => (List.mem_filter.mp hp).1)
        refine ⟨arr, ?_⟩
        simp [h1, h2, harr]
      · simp only [Bool.not_eq_true] at h2
        by_cases h3 : truthyArg args.available = true
        · obtain ⟨arr, harr⟩ := hall
            (Pet.find_by_availability db (parseAvailableArg (args.available.getD "")))
            (fun p hp => (List.mem_filter.mp hp).1)
          refine ⟨arr, ?_⟩
          simp [h1, h2, h3, harr]
        · simp only [Bool.not_eq_true] at h3
          by_cases h4 : truthyArg args.gender = true
          · cases hg : genderOfName (pyUpper (args.gender.getD "")) with
            | none =>
              exfalso
              simp [genderFilterFails, h1, h2, h3, h4, hg] at hok
            | some g =>
              obtain ⟨arr, harr⟩ := hall (Pet.find_by_gender db g)
                (fun p hp => (List.mem_filter.mp hp).1)
              refine ⟨arr, ?_⟩
              simp [h1, h2, h3, h4, hg, harr]
          · simp only [Bool.not_eq_true] at h4
            obtain ⟨arr, harr⟩ := hall db.pets (fun p hp => hp)
            refine ⟨arr, ?_⟩
            simp [h1, h2, h3, h4, harr, Pet.all]
  · intro hfail
    have hb := hfail
    simp only [genderFilterFails, Bool.and_eq_true, Bool.not_eq_true',
      Option.isNone_iff_eq_none] at hb
    obtain ⟨⟨⟨⟨h1, h2⟩, h3⟩, h4⟩, h5⟩ := hb
    unfold list_pets
    simp [h1, h2, h3, h4, h5]

/-- C9 counterexample: a list request whose gender parameter does not
uppercase to a member name does not return 200 with an array — the handler
raises an uncaught `KeyError`. -/
theorem list_pets_no_failure_cex :
    list_pets ⟨[], 1⟩ ⟨none, none, none, some "fish"⟩ =
      HResult.raised (PyErr.keyError "FISH") := by
  decide

/-! ### Witnesses: each claim theorem applied at a concrete input -/

theorem purchase_pets_spec_witness :
    purchase_pets dbAB 7 = (dbAB, abort404 7) ∧
    purchase_pets dbAB 2 = (dbAB, abort409 2) ∧
    purchase_pets dbAB 1 =
      (dbAB.commitUpdate { petA with available := PyVal.pybool false },
       HResult.resp ⟨200,
         Body.obj ((Pet.serialize { petA with available := PyVal.pybool false }).getD [])⟩) :=
  ⟨(purchase_pets_spec dbAB 7).1 rfl,
   (purchase_pets_spec dbAB 2).2.1 petB rfl rfl,
   (purchase_pets_spec dbAB 1).2.2 petA _ rfl rfl rfl rfl⟩

theorem list_pets_filter_precedence_witness :
    list_pets dbAB ⟨none, none, none, none⟩ =
      HResult.resp ⟨200, Body.arr ((serializeAll dbAB.pets).getD [])⟩ ∧
    list_pets dbAB ⟨some "dog", some "Kitty", some "true", some "FEMALE"⟩ =
      list_pets dbAB ⟨some "dog", none, none, none⟩ :=
  ⟨(list_pets_filter_precedence dbAB ⟨none, none, none, none⟩).1 rfl _ rfl,
   (list_pets_filter_precedence dbAB ⟨some "dog", some "Kitty", some "true", some "FEMALE"⟩).2.1 rfl⟩

theorem serialize_deserialize_round_trip_witness :
    Pet.new.deserialize petADict =
      ({ Pet.new with
          name := petA.name,
          category := petA.category,
          available := petA.available,
          gender := petA.gender,
          birthday := petA.birthday }, none) :=
  serialize_deserialize_round_trip petA Pet.new "Fido" "dog" true Gender.MALE
    ⟨2020, 1, 1⟩ petADict rfl (by decide) rfl (by decide) rfl rfl rfl (by decide) rfl

theorem deserialize_available_requires_bool_witness :
    (∃ msg, (Pet.new.deserialize [("available", PyVal.pyint 1)]).2 =
       some (PyErr.dataValidationError msg)) ∧
    (∃ msg, create_pets_route dbAB
        ⟨some "application/json",
         some [("name", PyVal.pystr "Rex"), ("category", PyVal.pystr "dog"),
               ("available", PyVal.pystr "true"), ("gender", PyVal.pystr "MALE"),
               ("birthday", PyVal.pystr "2021-03-04")]⟩ =
       (dbAB, HResult.resp ⟨400, Body.errorBody 400 msg⟩)) :=
  ⟨deserialize_available_requires_bool.1 Pet.new [("available", PyVal.pyint 1)]
     (PyVal.pyint 1) rfl (fun b h => by cases h),
   deserialize_available_requires_bool.2 dbAB
     [("name", PyVal.pystr "Rex"), ("category", PyVal.pystr "dog"),
      ("available", PyVal.pystr "true"), ("gender", PyVal.pystr "MALE"),
      ("birthday", PyVal.pystr "2021-03-04")] rfl⟩

theorem write_content_type_check_witness :
    (create_pets_route dbAB ⟨none, none⟩ =
       (dbAB, HResult.resp (abort415 "application/json")) ∧
     update_pets_route dbAB 1 ⟨none, none⟩ =
       (dbAB, HResult.resp (abort415 "application/json"))) ∧
    (create_pets_route dbAB ⟨some "text/plain", some goodPayload⟩ =
       (dbAB, HResult.resp (abort415 "application/json")) ∧
     update_pets_route dbAB 1 ⟨some "text/plain", some goodPayload⟩ =
       (dbAB, HResult.resp (abort415 "application/json"))) ∧
    (create_pets_route dbAB ⟨some "application/json; charset=utf-8", some goodPayload⟩ =
       (dbAB, HResult.resp (abort415 "application/json")) ∧
     update_pets_route dbAB 1 ⟨some "application/json; charset=utf-8", some goodPayload⟩ =
       (dbAB, HResult.resp (abort415 "application/json"))) ∧
    check_content_type ⟨some "application/json", some goodPayload⟩ "application/json" = none :=
  ⟨(write_content_type_check dbAB 1).1 none,
   (write_content_type_check dbAB 1).2.1 "text/plain" (some goodPayload) (by decide),
   (write_content_type_check dbAB 1).2.1 "application/json; charset=utf-8"
     (some goodPayload) (by decide),
   (write_content_type_check dbAB 1).2.2 (some goodPayload)⟩

theorem delete_pets_idempotent_witness :
    (delete_pets dbAB 1).2 = HResult.resp ⟨204, Body.obj []⟩ ∧
    (delete_pets (delete_pets dbAB 1).1 1).2 = HResult.resp ⟨204, Body.obj []⟩ ∧
    (delete_pets dbAB 9).1 = dbAB ∧
    (delete_pets dbAB 1).1.pets = dbAB.pets.filter (fun p => !(p.id == PyVal.pyint 1)) :=
  ⟨(delete_pets_idempotent dbAB 1).1,
   (delete_pets_idempotent dbAB 1).2.1,
   (delete_pets_idempotent dbAB 9).2.2.1 rfl,
   (delete_pets_idempotent dbAB 1).2.2.2 (by decide)⟩

theorem update_never_reassigns_id_witness :
    ((Pet.new.deserialize goodPayload).1).id = Pet.new.id ∧
    ((update_pets_route dbAB 1 ⟨some "application/json", some goodPayload⟩).1).pets.map Pet.id =
      dbAB.pets.map Pet.id ∧
    PyDict.get updatedDict "id" = some (PyVal.pyint 1) :=
  ⟨update_never_reassigns_id.1 Pet.new goodPayload,
   update_never_reassigns_id.2.1 dbAB 1 ⟨some "application/json", some goodPayload⟩,
   update_never_reassigns_id.2.2 dbAB 1 ⟨some "application/json", some goodPayload⟩
     updatedDict (by decide)⟩

theorem list_pets_total_amended_witness :
    (∃ arr, list_pets dbAB ⟨none, none, some "yes", none⟩ =
       HResult.resp ⟨200, Body.arr arr⟩) ∧
    list_pets dbAB ⟨none, none, none, some "fishy"⟩ =
      HResult.raised (PyErr.keyError "FISHY") :=
  ⟨(list_pets_total_amended dbAB ⟨none, none, some "yes", none⟩ (by decide)).1 rfl,
   (list_pets_total_amended dbAB ⟨none, none, none, some "fishy"⟩ (by decide)).2 rfl⟩

end PetStore
